import Mathlib

/-!
Verification of the Nutrition Aggregation & Weekly Meal-Plan Composition Engine
of the AI-Food-Planner repository.

Numbers are modelled as rationals (the code works on JavaScript numbers and the
specification speaks of real quantities; all constants involved are decimal).
JavaScript truthiness idioms (`x || d`, `if (x)`) are modelled explicitly, and
optional record fields are modelled with `Option`.

Nutrient vectors: `Vec4` is the (calories, protein, carbs, fat) shape used by
the week planner and the meal dialogs; `Vec5` additionally carries fiber and is
used by the recipe creator.
-/

namespace FoodPlanner

abbrev Vec4 : Type := ℚ × ℚ × ℚ × ℚ

abbrev Vec5 : Type := ℚ × ℚ × ℚ × ℚ × ℚ

/-- JavaScript `x || d` on a possibly absent number: an absent value and the
falsy value `0` both fall back to the default `d`. -/
def jsOrQ (x : Option ℚ) (d : ℚ) : ℚ :=
  match x with
  | none => d
  | some v => if v = 0 then d else v

/-- JavaScript `x || d` on a possibly-NaN parsed integer (`parseInt(s) || d`):
a failed parse (`none`, for NaN) and the falsy value `0` both give `d`. -/
def jsOrZ (x : Option ℤ) (d : ℤ) : ℤ :=
  match x with
  | none => d
  | some v => if v = 0 then d else v

/-- JavaScript `Math.round`: rounds to the nearest integer, halves away from
negative infinity (`Math.round x = ⌊x + 1/2⌋`). -/
def jsRound (q : ℚ) : ℤ := ⌊q + 1/2⌋

/-- The code's one-decimal rounding `Math.round(x * 10) / 10`. -/
def round1 (q : ℚ) : ℚ := (jsRound (q * 10) : ℚ) / 10

/-- Per-field product `v * k`, as the code multiplies each nutrient field by a
scalar factor. -/
def Vec4.mulEach (v : Vec4) (k : ℚ) : Vec4 :=
  (v.1 * k, v.2.1 * k, v.2.2.1 * k, v.2.2.2 * k)

/-!
## Ad-hoc gram scaling (diary dialog and week-plan dialog)

`calculateNutrition` appears identically in the meal dialog of
`src/unnamed/part_009` (lines 271-279) and in `WeekPlanner.tsx`
(lines 648-656): `factor = grams / 100`, every macro multiplied by `factor`.
-/

def calcNutrition100 (food : Vec4) (grams : ℚ) : Vec4 :=
  Vec4.mulEach food (grams / 100)

/-!
## Plan entry resolution (`WeekPlanner.tsx` lines 256-283)

`handleAddFoodToWeekPlan` computes `factor = unit === 'g' ? amount / 100 :
amount` and multiplies each macro of the chosen food by `factor`.  The recipe
tab of the dialog (lines 663-670) passes the recipe's per-serving macros
(`calories_per_serving || 0`, …) with `amount = servings` and
`unit = 'servings'`.
-/

def entryFactor (amount : ℚ) (unit : String) : ℚ :=
  if unit = "g" then amount / 100 else amount

def resolveEntryVec (food : Vec4) (amount : ℚ) (unit : String) : Vec4 :=
  Vec4.mulEach food (entryFactor amount unit)

/-- The per-serving macro vector the recipe tab hands to `onAddFood`
(`WeekPlanner.tsx` lines 664-670): each field is `field_per_serving || 0`. -/
structure RecipeSummary where
  calories_per_serving : Option ℚ
  protein_per_serving : Option ℚ
  carbs_per_serving : Option ℚ
  fat_per_serving : Option ℚ
deriving DecidableEq

def recipePerServingVec (r : RecipeSummary) : Vec4 :=
  (jsOrQ r.calories_per_serving 0, jsOrQ r.protein_per_serving 0,
   jsOrQ r.carbs_per_serving 0, jsOrQ r.fat_per_serving 0)

/-- `calculateRecipeNutrition` from `src/unnamed/part_009` lines 281-288:
every `field_per_serving || 0` multiplied by the number of servings. -/
def calculateRecipeNutrition (r : RecipeSummary) (numServings : ℚ) : Vec4 :=
  (jsOrQ r.calories_per_serving 0 * numServings,
   jsOrQ r.protein_per_serving 0 * numServings,
   jsOrQ r.carbs_per_serving 0 * numServings,
   jsOrQ r.fat_per_serving 0 * numServings)

/-!
## Week-plan state and its mutation handlers (`WeekPlanner.tsx`)

The handlers keep a local `WeekPlan` object (`useWeekPlans.ts` interface) and
update it after each server call:

* `handleAddFoodToWeekPlan` (lines 256-283) appends the resolved meal and adds
  its nutrients to the four denormalized totals;
* `handleRemoveMeal` (lines 162-174) filters the meal out of `meals` and does
  not touch the totals;
* `handleClearDay` (lines 176-188) filters a day's meals out of `meals` and
  does not touch the totals;
* `handleApplyToDiary` (lines 214-227) sets the plan status to `active`.
-/

structure WPMeal where
  id : ℤ
  day_index : ℤ
  meal_type : String
  food_name : String
  amount : ℚ
  unit : String
  calories : ℚ
  protein : ℚ
  carbs : ℚ
  fat : ℚ
deriving DecidableEq

def WPMeal.vec (m : WPMeal) : Vec4 := (m.calories, m.protein, m.carbs, m.fat)

inductive PlanStatus
  | draft
  | active
  | archived
deriving DecidableEq

structure WeekPlan where
  name : String
  start_date : String
  status : PlanStatus
  meals : List WPMeal
  total_calories : ℚ
  total_protein : ℚ
  total_carbs : ℚ
  total_fat : ℚ
deriving DecidableEq

def WeekPlan.totalsVec (p : WeekPlan) : Vec4 :=
  (p.total_calories, p.total_protein, p.total_carbs, p.total_fat)

/-- Elementwise sum of the nutrient vectors of a list of meals. -/
def mealsSumVec (l : List WPMeal) : Vec4 := (l.map WPMeal.vec).sum

/-- The denormalized-totals invariant of the data model: the plan's stored
totals equal the elementwise sum of its meals' nutrient vectors. -/
def sumInvariant (p : WeekPlan) : Prop :=
  p.totalsVec = mealsSumVec p.meals

instance (p : WeekPlan) : Decidable (sumInvariant p) := by
  unfold sumInvariant; infer_instance

/-- The arguments of one `handleAddFoodToWeekPlan` call (`newId` stands for the
id the server assigns to the created meal). -/
structure AddArgs where
  newId : ℤ
  dayIndex : ℤ
  mealType : String
  foodName : String
  food : Vec4
  amount : ℚ
  unit : String
deriving DecidableEq

/-- The meal record built from one add call: nutrients are the food's macros
multiplied by `factor = unit === 'g' ? amount / 100 : amount`. -/
def AddArgs.meal (a : AddArgs) : WPMeal :=
  { id := a.newId
    day_index := a.dayIndex
    meal_type := a.mealType
    food_name := a.foodName
    amount := a.amount
    unit := a.unit
    calories := a.food.1 * entryFactor a.amount a.unit
    protein := a.food.2.1 * entryFactor a.amount a.unit
    carbs := a.food.2.2.1 * entryFactor a.amount a.unit
    fat := a.food.2.2.2 * entryFactor a.amount a.unit }

/-- `handleAddFoodToWeekPlan` (`WeekPlanner.tsx` lines 256-283): append the new
meal and add its nutrients to the stored totals. -/
def handleAddFood (p : WeekPlan) (a : AddArgs) : WeekPlan :=
  { p with
    meals := p.meals ++ [a.meal]
    total_calories := p.total_calories + a.meal.calories
    total_protein := p.total_protein + a.meal.protein
    total_carbs := p.total_carbs + a.meal.carbs
    total_fat := p.total_fat + a.meal.fat }

/-- `handleRemoveMeal` (`WeekPlanner.tsx` lines 162-174): keep the meals whose
id differs from `mealId`; the stored totals are left unchanged. -/
def handleRemoveMeal (p : WeekPlan) (mealId : ℤ) : WeekPlan :=
  { p with meals := p.meals.filter (fun m => m.id ≠ mealId) }

/-- `handleClearDay` (`WeekPlanner.tsx` lines 176-188): keep the meals whose
day index differs from `dayIndex`; the stored totals are left unchanged. -/
def handleClearDay (p : WeekPlan) (dayIndex : ℤ) : WeekPlan :=
  { p with meals := p.meals.filter (fun m => m.day_index ≠ dayIndex) }

/-- `handleApplyToDiary` (`WeekPlanner.tsx` lines 214-227): after the server
call succeeds the local plan is replaced by `{ ...currentPlan, status:
'active' }`. -/
def handleApplyToDiary (p : WeekPlan) : WeekPlan :=
  { p with status := PlanStatus.active }

/-- `getDayTotals` (`WeekPlanner.tsx` lines 241-250): zero vector without a
current plan, otherwise four separate reductions over the meals of the day. -/
def getDayTotals (p? : Option WeekPlan) (dayIndex : ℤ) : Vec4 :=
  match p? with
  | none => (0, 0, 0, 0)
  | some p =>
    let dayMeals := p.meals.filter (fun m => m.day_index = dayIndex)
    (dayMeals.foldl (fun sum m => sum + m.calories) 0,
     dayMeals.foldl (fun sum m => sum + m.protein) 0,
     dayMeals.foldl (fun sum m => sum + m.carbs) 0,
     dayMeals.foldl (fun sum m => sum + m.fat) 0)

/-!
## Operation sequences over the week-plan handlers
-/

inductive PlanOp
  | addMeal (a : AddArgs)
  | removeMeal (mealId : ℤ)
  | clearDay (dayIndex : ℤ)
deriving DecidableEq

def applyOp (p : WeekPlan) : PlanOp → WeekPlan
  | PlanOp.addMeal a => handleAddFood p a
  | PlanOp.removeMeal i => handleRemoveMeal p i
  | PlanOp.clearDay d => handleClearDay p d

def applyOps (p : WeekPlan) (ops : List PlanOp) : WeekPlan :=
  ops.foldl applyOp p

/-- Nutrient mass dropped from the meal list by one operation. -/
def removedByOp (p : WeekPlan) : PlanOp → Vec4
  | PlanOp.addMeal _ => 0
  | PlanOp.removeMeal i => mealsSumVec (p.meals.filter (fun m => m.id = i))
  | PlanOp.clearDay d => mealsSumVec (p.meals.filter (fun m => m.day_index = d))

/-- Total nutrient mass dropped from the meal list along a sequence. -/
def removedTotal : WeekPlan → List PlanOp → Vec4
  | _, [] => 0
  | p, o :: rest => removedByOp p o + removedTotal (applyOp p o) rest

/-!
## Ingredients, the nutrient scaler and the recipe composer
(`Frontend/src/components/RecipeCreator.tsx`)

The `Ingredient` shape comes from `Frontend/src/types/index.ts`: required
per-serving and per-100g macro fields, optional fiber fields, and serving
metadata.  `serving_size` is declared as a required number in the TypeScript
type but the code guards it with JavaScript truthiness checks, so it is
modelled as `Option ℚ` (with `some 0` and `none` both falsy); an empty string
models a falsy `serving_unit`.
-/

structure Ingredient where
  serving_unit : String
  serving_size : Option ℚ
  calories_per_serving : ℚ
  protein_per_serving : ℚ
  carbs_per_serving : ℚ
  fat_per_serving : ℚ
  fiber_per_serving : Option ℚ
  calories_per_100g : ℚ
  protein_per_100g : ℚ
  carbs_per_100g : ℚ
  fat_per_100g : ℚ
  fiber_per_100g : Option ℚ
deriving DecidableEq

/-- The per-serving basis of an ingredient, fiber defaulting to 0
(`fiber_per_serving || 0`). -/
def perServingVec (i : Ingredient) : Vec5 :=
  (i.calories_per_serving, i.protein_per_serving, i.carbs_per_serving,
   i.fat_per_serving, jsOrQ i.fiber_per_serving 0)

/-- The per-100g basis of an ingredient, fiber defaulting to 0
(`fiber_per_100g || 0`). -/
def per100gVec (i : Ingredient) : Vec5 :=
  (i.calories_per_100g, i.protein_per_100g, i.carbs_per_100g,
   i.fat_per_100g, jsOrQ i.fiber_per_100g 0)

/-- A `RecipeIngredient`: quantity, unit, and the (possibly unresolved)
ingredient record. -/
structure RecipeItem where
  quantity : ℚ
  unit : String
  ingredient : Option Ingredient
deriving DecidableEq

/-- One item's contribution inside `calculateNutrition`
(`RecipeCreator.tsx` lines 108-131): an unresolved ingredient contributes
nothing; with `unit === 'piece'` and `serving_unit === 'egg'` the per-serving
fields are multiplied by the quantity, otherwise the per-100g fields are
multiplied by `quantity / 100`. -/
def scaleItem (it : RecipeItem) : Vec5 :=
  match it.ingredient with
  | none => 0
  | some ing =>
    if it.unit = "piece" ∧ ing.serving_unit = "egg" then
      (ing.calories_per_serving * it.quantity,
       ing.protein_per_serving * it.quantity,
       ing.carbs_per_serving * it.quantity,
       ing.fat_per_serving * it.quantity,
       jsOrQ ing.fiber_per_serving 0 * it.quantity)
    else
      (ing.calories_per_100g * (it.quantity / 100),
       ing.protein_per_100g * (it.quantity / 100),
       ing.carbs_per_100g * (it.quantity / 100),
       ing.fat_per_100g * (it.quantity / 100),
       jsOrQ ing.fiber_per_100g 0 * (it.quantity / 100))

/-- The `forEach` callback of `calculateNutrition` (`RecipeCreator.tsx` lines
108-131), accumulating the five running totals. -/
def accumItem (acc : Vec5) (it : RecipeItem) : Vec5 :=
  match it.ingredient with
  | none => acc
  | some ing =>
    if it.unit = "piece" ∧ ing.serving_unit = "egg" then
      (acc.1 + ing.calories_per_serving * it.quantity,
       acc.2.1 + ing.protein_per_serving * it.quantity,
       acc.2.2.1 + ing.carbs_per_serving * it.quantity,
       acc.2.2.2.1 + ing.fat_per_serving * it.quantity,
       acc.2.2.2.2 + jsOrQ ing.fiber_per_serving 0 * it.quantity)
    else
      (acc.1 + ing.calories_per_100g * (it.quantity / 100),
       acc.2.1 + ing.protein_per_100g * (it.quantity / 100),
       acc.2.2.1 + ing.carbs_per_100g * (it.quantity / 100),
       acc.2.2.2.1 + ing.fat_per_100g * (it.quantity / 100),
       acc.2.2.2.2 + jsOrQ ing.fiber_per_100g 0 * (it.quantity / 100))

/-- `calculateNutrition` (`RecipeCreator.tsx` lines 101-141): accumulate the
five totals over the selected ingredients in one pass, divide by
`parseInt(formData.servings) || 1`, and round — calories to the nearest
integer, the other four fields to one decimal.  `servingsField` is the
`parseInt` result (`none` for NaN). -/
def calculateNutrition (items : List RecipeItem) (servingsField : Option ℤ) : Vec5 :=
  let t := items.foldl accumItem ((0, 0, 0, 0, 0) : Vec5)
  let servings : ℤ := jsOrZ servingsField 1
  ((jsRound (t.1 / servings) : ℚ),
   round1 (t.2.1 / servings),
   round1 (t.2.2.1 / servings),
   round1 (t.2.2.2.1 / servings),
   round1 (t.2.2.2.2 / servings))

/-- Dividing the five accumulated totals by the servings count and rounding as
the code does (calories to integer, the rest to one decimal). -/
def roundPerServing (t : Vec5) (servings : ℤ) : Vec5 :=
  ((jsRound (t.1 / servings) : ℚ),
   round1 (t.2.1 / servings),
   round1 (t.2.2.1 / servings),
   round1 (t.2.2.2.1 / servings),
   round1 (t.2.2.2.2 / servings))

/-!
## The unit resolver (`RecipeCreator.tsx` `addIngredient`, lines 43-83)

`addIngredient` derives the default `(quantity, unit)` for a newly added
ingredient from its `serving_unit` and `serving_size`.  The branch structure
mirrors the source; a `serving_unit` of `'g'` whose `serving_size` is falsy or
equal to 100 matches no branch (in particular not the household branch), so the
initial `(100, 'g')` default survives, which the last pattern below states
directly. -/

def addIngredientDefaults (su : String) (ss : Option ℚ) : ℚ × String :=
  if su = "" then (100, "g")
  else if su = "egg" ∨ su = "piece" ∨ su = "item" ∨ su = "whole" then (1, "piece")
  else if su = "ml" ∨ su = "fluid ounce" then (jsOrQ ss 100, "ml")
  else if su = "g" then
    match ss with
    | some v => if v ≠ 0 ∧ v ≠ 100 then (v, "g") else (100, "g")
    | none => (100, "g")
  else if su = "cup" ∨ su = "tbsp" ∨ su = "tsp" ∨ su = "tablespoon" ∨ su = "teaspoon" then
    (1, if su = "tablespoon" then "tbsp" else if su = "teaspoon" then "tsp" else su)
  else (100, "g")

/-!
## Claim-shaped reference formulations

The following definitions follow the wording of the specification rather than
the source; they exist to be compared against the source-shaped definitions
above.
-/

/-- The nutrient scaler exactly as the spec words it: the per-serving branch
fires for `unit = piece` whenever the native serving unit is any of the
piece-like units egg, piece, item, whole. -/
def scaleItemClaimC3 (it : RecipeItem) : Vec5 :=
  match it.ingredient with
  | none => 0
  | some ing =>
    if it.unit = "piece" ∧ (ing.serving_unit = "egg" ∨ ing.serving_unit = "piece" ∨
        ing.serving_unit = "item" ∨ ing.serving_unit = "whole") then
      it.quantity • perServingVec ing
    else
      (it.quantity / 100) • per100gVec ing

/-- The nutrient scaler as the code actually dispatches: the per-serving branch
fires only when the native serving unit is exactly the string egg. -/
def scaleItemAmended (it : RecipeItem) : Vec5 :=
  match it.ingredient with
  | none => 0
  | some ing =>
    if it.unit = "piece" ∧ ing.serving_unit = "egg" then
      it.quantity • perServingVec ing
    else
      (it.quantity / 100) • per100gVec ing

/-- The recipe composer exactly as the spec words it: the sum of the scaled
ingredient vectors divided fieldwise by the servings count, with no
rounding. -/
def claimedPerServingC5 (items : List RecipeItem) (servings : ℤ) : Vec5 :=
  ((1 : ℚ) / (servings : ℚ)) • (items.map scaleItem).sum

/-- The unit resolver exactly as the spec words it: a `serving_unit` of `g`
with any `serving_size` different from 100 yields `(serving_size, g)`. -/
def claimedDefaultsC6 (su : String) (ss : Option ℚ) : ℚ × String :=
  if su = "egg" ∨ su = "piece" ∨ su = "item" ∨ su = "whole" then (1, "piece")
  else if su = "ml" ∨ su = "fluid ounce" then (jsOrQ ss 100, "ml")
  else if su = "g" then
    match ss with
    | some v => if v ≠ 100 then (v, "g") else (100, "g")
    | none => (100, "g")
  else if su = "cup" ∨ su = "tbsp" ∨ su = "tsp" ∨ su = "tablespoon" ∨ su = "teaspoon" then
    (1, if su = "tablespoon" then "tbsp" else if su = "teaspoon" then "tsp" else su)
  else (100, "g")

/-- The unit resolver classification as the code actually behaves: the
`(serving_size, g)` case additionally requires the serving size to be present
and nonzero (a falsy serving size falls through to the `(100, g)` default). -/
def amendedDefaultsC6 (su : String) (ss : Option ℚ) : ℚ × String :=
  if su = "egg" ∨ su = "piece" ∨ su = "item" ∨ su = "whole" then (1, "piece")
  else if su = "ml" ∨ su = "fluid ounce" then (jsOrQ ss 100, "ml")
  else if su = "g" then
    match ss with
    | some v => if v ≠ 0 ∧ v ≠ 100 then (v, "g") else (100, "g")
    | none => (100, "g")
  else if su = "cup" ∨ su = "tbsp" ∨ su = "tsp" ∨ su = "tablespoon" ∨ su = "teaspoon" then
    (1, if su = "tablespoon" then "tbsp" else if su = "teaspoon" then "tsp" else su)
  else (100, "g")

/-!
## Supporting lemmas
-/

lemma foldl_add_comp {α : Type} (f : α → ℚ) (l : List α) (a : ℚ) :
    l.foldl (fun s m => s + f m) a = a + (l.map f).sum := by
  induction l generalizing a with
  | nil => simp
  | cons x l ih => simp [ih, add_assoc]

lemma mealsSumVec_components (l : List WPMeal) :
    mealsSumVec l = ((l.map fun m => m.calories).sum, (l.map fun m => m.protein).sum,
      (l.map fun m => m.carbs).sum, (l.map fun m => m.fat).sum) := by
  induction l with
  | nil => rfl
  | cons m l ih => simp [mealsSumVec, WPMeal.vec] at ih ⊢; rw [ih]; rfl

lemma sum_map_filter_not_add {α M : Type} [AddCommMonoid M] (q : α → Bool) (f : α → M)
    (l : List α) :
    ((l.filter fun a => !q a).map f).sum + ((l.filter q).map f).sum = (l.map f).sum := by
  induction l with
  | nil => simp
  | cons x l ih => cases hq : q x <;> simp [List.filter_cons, hq, ← ih] <;> abel

lemma accumItem_eq_add (acc : Vec5) (it : RecipeItem) :
    accumItem acc it = acc + scaleItem it := by
  obtain ⟨a1, a2, a3, a4, a5⟩ := acc
  rcases it with ⟨q, u, _ | ing⟩
  · simp [accumItem, scaleItem]
  · by_cases h : u = "piece" ∧ ing.serving_unit = "egg" <;>
      simp [accumItem, scaleItem, h, Prod.mk_add_mk]

lemma foldl_accumItem (items : List RecipeItem) (acc : Vec5) :
    items.foldl accumItem acc = acc + (items.map scaleItem).sum := by
  induction items generalizing acc with
  | nil => simp
  | cons it rest ih => simp [ih, accumItem_eq_add, add_assoc]

lemma handleAddFood_totalsVec (p : WeekPlan) (a : AddArgs) :
    (handleAddFood p a).totalsVec = p.totalsVec + a.meal.vec := by
  simp [handleAddFood, WeekPlan.totalsVec, WPMeal.vec, Prod.mk_add_mk]

lemma mealsSumVec_append (l1 l2 : List WPMeal) :
    mealsSumVec (l1 ++ l2) = mealsSumVec l1 + mealsSumVec l2 := by
  simp [mealsSumVec]

lemma mealsSumVec_filter_partition (l : List WPMeal) (q : WPMeal → Bool) :
    mealsSumVec (l.filter fun m => !q m) + mealsSumVec (l.filter q) = mealsSumVec l :=
  sum_map_filter_not_add q WPMeal.vec l

lemma applyOps_totals_offset (ops : List PlanOp) :
    ∀ (p : WeekPlan) (c : Vec4),
      p.totalsVec = mealsSumVec p.meals + c →
      (applyOps p ops).totalsVec =
        mealsSumVec (applyOps p ops).meals + (c + removedTotal p ops) := by
  induction ops with
  | nil => intro p c h; simpa [applyOps, removedTotal] using h
  | cons o rest ih =>
    intro p c h
    have hstep : (applyOp p o).totalsVec =
        mealsSumVec (applyOp p o).meals + (c + removedByOp p o) := by
      cases o with
      | addMeal a =>
        have htot : (applyOp p (PlanOp.addMeal a)).totalsVec = p.totalsVec + a.meal.vec :=
          handleAddFood_totalsVec p a
        have hmeals : (applyOp p (PlanOp.addMeal a)).meals = p.meals ++ [a.meal] := rfl
        rw [htot, hmeals, mealsSumVec_append, h, removedByOp]
        have hsingle : mealsSumVec [a.meal] = a.meal.vec := by
          simp [mealsSumVec]
        rw [hsingle]; abel
      | removeMeal i =>
        have htot : (applyOp p (PlanOp.removeMeal i)).totalsVec = p.totalsVec := rfl
        have hmeals : (applyOp p (PlanOp.removeMeal i)).meals =
            p.meals.filter fun m => !(decide (m.id = i)) := by
          show p.meals.filter (fun m => m.id ≠ i) = _
          simp only [ne_eq, decide_not]
        have hpart := mealsSumVec_filter_partition p.meals (fun m => decide (m.id = i))
        rw [htot, hmeals, h, removedByOp, ← hpart]; abel
      | clearDay d =>
        have htot : (applyOp p (PlanOp.clearDay d)).totalsVec = p.totalsVec := rfl
        have hmeals : (applyOp p (PlanOp.clearDay d)).meals =
            p.meals.filter fun m => !(decide (m.day_index = d)) := by
          show p.meals.filter (fun m => m.day_index ≠ d) = _
          simp only [ne_eq, decide_not]
        have hpart := mealsSumVec_filter_partition p.meals (fun m => decide (m.day_index = d))
        rw [htot, hmeals, h, removedByOp, ← hpart]; abel
    have h2 := ih (applyOp p o) (c + removedByOp p o) hstep
    simpa [applyOps, removedTotal, add_assoc] using h2

lemma foldl_add_cal (l : List WPMeal) (a : ℚ) :
    l.foldl (fun sum m => sum + m.calories) a = a + (l.map fun m => m.calories).sum :=
  foldl_add_comp (fun m => m.calories) l a

lemma foldl_add_prot (l : List WPMeal) (a : ℚ) :
    l.foldl (fun sum m => sum + m.protein) a = a + (l.map fun m => m.protein).sum :=
  foldl_add_comp (fun m => m.protein) l a

lemma foldl_add_carbs (l : List WPMeal) (a : ℚ) :
    l.foldl (fun sum m => sum + m.carbs) a = a + (l.map fun m => m.carbs).sum :=
  foldl_add_comp (fun m => m.carbs) l a

lemma foldl_add_fat (l : List WPMeal) (a : ℚ) :
    l.foldl (fun sum m => sum + m.fat) a = a + (l.map fun m => m.fat).sum :=
  foldl_add_comp (fun m => m.fat) l a

lemma getDayTotals_some (p : WeekPlan) (d : ℤ) :
    getDayTotals (some p) d = mealsSumVec (p.meals.filter fun m => m.day_index = d) := by
  show ((p.meals.filter fun m => m.day_index = d).foldl (fun sum m => sum + m.calories) 0,
        (p.meals.filter fun m => m.day_index = d).foldl (fun sum m => sum + m.protein) 0,
        (p.meals.filter fun m => m.day_index = d).foldl (fun sum m => sum + m.carbs) 0,
        (p.meals.filter fun m => m.day_index = d).foldl (fun sum m => sum + m.fat) 0) = _
  rw [foldl_add_cal, foldl_add_prot, foldl_add_carbs, foldl_add_fat, mealsSumVec_components]
  simp

/-!
## Concrete sample data used by witnesses and counterexamples
-/

def mealW : WPMeal :=
  { id := 1, day_index := 0, meal_type := "breakfast", food_name := "Oats",
    amount := 100, unit := "g", calories := 100, protein := 10, carbs := 20, fat := 5 }

def planW : WeekPlan :=
  { name := "Week", start_date := "2024-01-01", status := PlanStatus.draft,
    meals := [mealW], total_calories := 100, total_protein := 10,
    total_carbs := 20, total_fat := 5 }

def planEmptyW : WeekPlan :=
  { name := "Week", start_date := "2024-01-01", status := PlanStatus.draft,
    meals := [], total_calories := 0, total_protein := 0,
    total_carbs := 0, total_fat := 0 }

def argW : AddArgs :=
  { newId := 1, dayIndex := 2, mealType := "lunch", foodName := "Rice",
    food := (100, 10, 20, 5), amount := 100, unit := "g" }

def opsW : List PlanOp := [PlanOp.removeMeal 1]

def planW9 : WeekPlan :=
  { name := "P9", start_date := "2024-01-01", status := PlanStatus.draft,
    meals := [{ id := 7, day_index := 0, meal_type := "lunch", food_name := "Rice",
                amount := 100, unit := "g", calories := 130, protein := 3,
                carbs := 28, fat := 0 }],
    total_calories := 130, total_protein := 3, total_carbs := 28, total_fat := 0 }

/-!
## Claim theorems
-/

/-- C10: the ad-hoc per-100g scaler is exact at 100 grams, homogeneous, and
additive in the gram amount. -/
theorem c10_gram_scaling_linear :
    ∀ (food : Vec4) (a b k : ℚ),
      calcNutrition100 food 100 = food ∧
      calcNutrition100 food (k * a) = k • calcNutrition100 food a ∧
      calcNutrition100 food (a + b) = calcNutrition100 food a + calcNutrition100 food b := by
  intro food a b k
  obtain ⟨c, pr, cb, f⟩ := food
  refine ⟨?_, ?_, ?_⟩ <;>
    simp only [calcNutrition100, Vec4.mulEach, Prod.smul_mk, smul_eq_mul, Prod.mk_add_mk,
      Prod.mk.injEq] <;>
    refine ⟨by ring, by ring, by ring, by ring⟩

/-- C4: the plan entry resolver scales an ad-hoc gram entry by amount/100, a
servings entry by the amount, and a recipe-backed entry by the servings count
applied to the recipe's per-serving vector (the only mass/volume unit the call
sites pass is the gram unit). -/
theorem c4_plan_entry_resolver :
    ∀ (food : Vec4) (amount : ℚ) (r : RecipeSummary) (s : ℚ),
      resolveEntryVec food amount "g" = (amount / 100) • food ∧
      resolveEntryVec food amount "servings" = amount • food ∧
      calculateRecipeNutrition r s = s • recipePerServingVec r ∧
      resolveEntryVec (recipePerServingVec r) s "servings" = s • recipePerServingVec r := by
  intro food amount r s
  obtain ⟨c, pr, cb, f⟩ := food
  have hg : entryFactor amount "g" = amount / 100 := by simp [entryFactor]
  have hs : ∀ x : ℚ, entryFactor x "servings" = x := by intro x; simp [entryFactor]
  refine ⟨?_, ?_, ?_, ?_⟩ <;>
    simp only [resolveEntryVec, Vec4.mulEach, hg, hs, calculateRecipeNutrition,
      recipePerServingVec, Prod.smul_mk, smul_eq_mul, Prod.mk.injEq] <;>
    refine ⟨by ring, by ring, by ring, by ring⟩

/-- C9: `getDayTotals` equals the elementwise sum of the nutrient vectors of
exactly the meals with the given day index, is the zero vector for a missing
plan and whenever no meal matches, and (being a plain function of the plan) is
a pure read. -/
theorem c9_day_totals_rollup :
    ∀ (p : WeekPlan) (d : ℤ),
      getDayTotals (some p) d = mealsSumVec (p.meals.filter fun m => m.day_index = d) ∧
      getDayTotals none d = (0 : Vec4) ∧
      ((∀ m ∈ p.meals, m.day_index ≠ d) → getDayTotals (some p) d = (0 : Vec4)) := by
  intro p d
  refine ⟨getDayTotals_some p d, rfl, ?_⟩
  intro h
  rw [getDayTotals_some p d]
  have hnil : p.meals.filter (fun m => m.day_index = d) = [] := by
    simp only [List.filter_eq_nil_iff, decide_eq_true_eq]
    exact h
  rw [hnil]
  rfl

/-- Witness for C9 at a concrete plan and a day index with no matching
meal. -/
theorem c9_witness :
    (∀ m ∈ planW9.meals, m.day_index ≠ 3) ∧ getDayTotals (some planW9) 3 = (0 : Vec4) :=
  ⟨by decide, (c9_day_totals_rollup planW9 3).2.2 (by decide)⟩

/-- C1 (counterexample): a plan whose totals are consistent stops satisfying
the sum invariant after a single `removeMeal` operation, because the handler
filters the meal list without adjusting the stored totals. -/
theorem c1_counterexample :
    sumInvariant planW ∧ ¬ sumInvariant (applyOps planW opsW) := by
  constructor
  · show planW.totalsVec = mealsSumVec planW.meals
    simp [planW, mealW, WeekPlan.totalsVec, mealsSumVec, WPMeal.vec]
  · show ¬ (applyOps planW opsW).totalsVec = mealsSumVec (applyOps planW opsW).meals
    simp [applyOps, opsW, applyOp, handleRemoveMeal, planW, mealW,
      WeekPlan.totalsVec, mealsSumVec, WPMeal.vec]

/-- C1 (amended): over any sequence of addMeal/removeMeal/clearDay handler
operations started from a consistent plan, the stored totals equal the
elementwise sum of the current meals' nutrient vectors plus the nutrient
vectors of every meal removed so far — addMeal keeps the invariant, while
removeMeal and clearDay leave the totals unchanged and therefore break it as
soon as a meal with a nonzero vector is removed. -/
theorem c1_totals_after_ops :
    ∀ (ops : List PlanOp) (p : WeekPlan), sumInvariant p →
      (applyOps p ops).totalsVec =
        mealsSumVec (applyOps p ops).meals + removedTotal p ops := by
  intro ops p h
  have h0 : p.totalsVec = mealsSumVec p.meals + 0 := by
    rw [add_zero]; exact h
  simpa using applyOps_totals_offset ops p 0 h0

/-- Witness for C1 at a concrete consistent plan and operation sequence. -/
theorem c1_witness :
    sumInvariant planW ∧
      (applyOps planW opsW).totalsVec =
        mealsSumVec (applyOps planW opsW).meals + removedTotal planW opsW :=
  ⟨by simp [sumInvariant, planW, mealW, WeekPlan.totalsVec, mealsSumVec, WPMeal.vec],
   c1_totals_after_ops opsW planW
     (by simp [sumInvariant, planW, mealW, WeekPlan.totalsVec, mealsSumVec, WPMeal.vec])⟩

/-- C2 (counterexample): adding a 100 kcal food and removing the created meal
again leaves the plan's totals strictly larger than before the add. -/
theorem c2_counterexample :
    (handleRemoveMeal (handleAddFood planEmptyW argW) argW.newId).meals =
      planEmptyW.meals ∧
    (handleRemoveMeal (handleAddFood planEmptyW argW) argW.newId).totalsVec ≠
      planEmptyW.totalsVec := by
  constructor
  · decide
  · show ¬ (handleRemoveMeal (handleAddFood planEmptyW argW) argW.newId).totalsVec =
      planEmptyW.totalsVec
    norm_num [handleRemoveMeal, handleAddFood, AddArgs.meal, entryFactor, planEmptyW, argW,
      WeekPlan.totalsVec]

/-- C2 (amended): `addMeal(x)` followed by `removeMeal(x.id)` (with a fresh
id) restores the meal list but leaves the totals increased by x's resolved
nutrient vector; the totals before the add are recovered only when that vector
is zero. -/
theorem c2_add_then_remove :
    ∀ (p : WeekPlan) (a : AddArgs),
      (∀ m ∈ p.meals, m.id ≠ a.newId) →
      (handleRemoveMeal (handleAddFood p a) a.newId).meals = p.meals ∧
      (handleRemoveMeal (handleAddFood p a) a.newId).totalsVec =
        p.totalsVec + a.meal.vec := by
  intro p a h
  constructor
  · show (p.meals ++ [a.meal]).filter (fun m => m.id ≠ a.newId) = p.meals
    rw [List.filter_append]
    have h1 : p.meals.filter (fun m => m.id ≠ a.newId) = p.meals := by
      rw [List.filter_eq_self]
      intro m hm
      simpa using h m hm
    have h2 : [a.meal].filter (fun m => m.id ≠ a.newId) = [] := by
      simp [AddArgs.meal]
    rw [h1, h2, List.append_nil]
  · show (handleAddFood p a).totalsVec = p.totalsVec + a.meal.vec
    exact handleAddFood_totalsVec p a

/-- Witness for C2 at a concrete empty plan and a fresh meal id. -/
theorem c2_witness :
    (∀ m ∈ planEmptyW.meals, m.id ≠ argW.newId) ∧
      ((handleRemoveMeal (handleAddFood planEmptyW argW) argW.newId).meals =
        planEmptyW.meals ∧
      (handleRemoveMeal (handleAddFood planEmptyW argW) argW.newId).totalsVec =
        planEmptyW.totalsVec + argW.meal.vec) :=
  ⟨by decide, c2_add_then_remove planEmptyW argW (by decide)⟩

/-- C8 (counterexample): applying a draft plan to the diary changes its
status, so the source plan is not left entirely unchanged. -/
theorem c8_counterexample :
    planW.status = PlanStatus.draft ∧ (handleApplyToDiary planW).status ≠ planW.status := by
  constructor
  · rfl
  · decide

/-- C8 (amended): applying a plan to the diary leaves its meal list, four
stored totals, name and start date unchanged, and sets its status to
active. -/
theorem c8_apply_to_diary_frame :
    ∀ p : WeekPlan,
      (handleApplyToDiary p).meals = p.meals ∧
      (handleApplyToDiary p).total_calories = p.total_calories ∧
      (handleApplyToDiary p).total_protein = p.total_protein ∧
      (handleApplyToDiary p).total_carbs = p.total_carbs ∧
      (handleApplyToDiary p).total_fat = p.total_fat ∧
      (handleApplyToDiary p).name = p.name ∧
      (handleApplyToDiary p).start_date = p.start_date ∧
      (handleApplyToDiary p).status = PlanStatus.active := by
  intro p
  exact ⟨rfl, rfl, rfl, rfl, rfl, rfl, rfl, rfl⟩

def ingGram200 : Ingredient :=
  { serving_unit := "g", serving_size := some 100,
    calories_per_serving := 200, protein_per_serving := 0, carbs_per_serving := 0,
    fat_per_serving := 0, fiber_per_serving := none,
    calories_per_100g := 200, protein_per_100g := 0, carbs_per_100g := 0,
    fat_per_100g := 0, fiber_per_100g := none }

def ingEgg70 : Ingredient :=
  { serving_unit := "egg", serving_size := some 50,
    calories_per_serving := 70, protein_per_serving := 6, carbs_per_serving := 1,
    fat_per_serving := 5, fiber_per_serving := none,
    calories_per_100g := 140, protein_per_100g := 12, carbs_per_100g := 2,
    fat_per_100g := 10, fiber_per_100g := none }

def ingPiece70 : Ingredient :=
  { serving_unit := "piece", serving_size := some 50,
    calories_per_serving := 70, protein_per_serving := 6, carbs_per_serving := 1,
    fat_per_serving := 5, fiber_per_serving := none,
    calories_per_100g := 200, protein_per_100g := 12, carbs_per_100g := 2,
    fat_per_100g := 10, fiber_per_100g := none }

def itPieceC3 : RecipeItem := { quantity := 2, unit := "piece", ingredient := some ingPiece70 }

def ing400 : Ingredient :=
  { serving_unit := "g", serving_size := some 100,
    calories_per_serving := 400, protein_per_serving := 0, carbs_per_serving := 0,
    fat_per_serving := 0, fiber_per_serving := none,
    calories_per_100g := 400, protein_per_100g := 0, carbs_per_100g := 0,
    fat_per_100g := 0, fiber_per_100g := none }

def recipe800 : List RecipeItem := [{ quantity := 200, unit := "g", ingredient := some ing400 }]

def ing33 : Ingredient :=
  { serving_unit := "g", serving_size := some 100,
    calories_per_serving := 33, protein_per_serving := 0, carbs_per_serving := 0,
    fat_per_serving := 0, fiber_per_serving := none,
    calories_per_100g := 33, protein_per_100g := 0, carbs_per_100g := 0,
    fat_per_100g := 0, fiber_per_100g := none }

def recipe33 : List RecipeItem := [{ quantity := 50, unit := "g", ingredient := some ing33 }]

/-- C3 (counterexample): an ingredient whose native serving unit is the
piece-like string piece, used as 2 pieces, is scaled from the per-100g basis
(calories 200 · 2/100 = 4) instead of the per-serving basis (70 · 2 = 140)
the claim prescribes, because the code compares the serving unit against the
single string egg. -/
theorem c3_counterexample :
    (scaleItem itPieceC3).1 = 4 ∧ (scaleItemClaimC3 itPieceC3).1 = 140 ∧
      scaleItem itPieceC3 ≠ scaleItemClaimC3 itPieceC3 := by
  have hA : (scaleItem itPieceC3).1 = 4 := by
    simp [scaleItem, itPieceC3, ingPiece70]
    norm_num
  have hB : (scaleItemClaimC3 itPieceC3).1 = 140 := by
    simp [scaleItemClaimC3, itPieceC3, ingPiece70, perServingVec, Prod.smul_mk, smul_eq_mul]
    norm_num
  refine ⟨hA, hB, ?_⟩
  intro heq
  rw [heq, hB] at hA
  norm_num at hA

/-- C3 (amended): the per-serving branch of the nutrient scaler fires only
when the requested unit is piece and the ingredient's native serving unit is
exactly egg; every other request is scaled from the per-100g basis by
quantity/100.  The two quoted examples hold: per-100g calories 200 at 150 g
yields 300, and a serving_unit egg ingredient with 70 kcal per serving at
2 pieces yields 140. -/
theorem c3_scaler_dispatch :
    (∀ it : RecipeItem, scaleItem it = scaleItemAmended it) ∧
      (scaleItem { quantity := 150, unit := "g", ingredient := some ingGram200 }).1 = 300 ∧
      (scaleItem { quantity := 2, unit := "piece", ingredient := some ingEgg70 }).1 = 140 := by
  refine ⟨?_, ?_, ?_⟩
  · intro it
    rcases it with ⟨q, u, _ | ing⟩
    · rfl
    · by_cases h : u = "piece" ∧ ing.serving_unit = "egg" <;>
        simp [scaleItem, scaleItemAmended, h, perServingVec, per100gVec,
          Prod.smul_mk, smul_eq_mul, mul_comm]
  · simp [scaleItem, ingGram200]
    norm_num
  · simp [scaleItem, ingEgg70]
    try norm_num

/-- C5 (counterexample): a one-ingredient recipe (33 kcal per 100 g, 50 g,
one serving) returns 17 kcal, not the exact quotient 33/2, because the
composer rounds calories to the nearest integer before returning them. -/
theorem c5_counterexample :
    (calculateNutrition recipe33 (some 1)).1 = 17 ∧
      (claimedPerServingC5 recipe33 1).1 = 33 / 2 ∧
      calculateNutrition recipe33 (some 1) ≠ claimedPerServingC5 recipe33 1 := by
  have hA : (calculateNutrition recipe33 (some 1)).1 = 17 := by
    simp [calculateNutrition, accumItem, recipe33, ing33, jsOrZ, jsRound]
    norm_num
  have hB : (claimedPerServingC5 recipe33 1).1 = 33 / 2 := by
    simp [claimedPerServingC5, scaleItem, recipe33, ing33, Prod.smul_mk, smul_eq_mul]
    norm_num
  refine ⟨hA, hB, ?_⟩
  intro heq
  rw [heq, hB] at hA
  norm_num at hA

/-- C5 (amended): the composer's output is the elementwise sum of the scaled
ingredient vectors divided by the servings count and then rounded — calories
to the nearest integer, the other fields to one decimal; an unset or invalid
(NaN) and a zero servings field both default to 1; a servings-4 recipe whose
ingredients total 800 kcal yields exactly 200 kcal per serving. -/
theorem c5_recipe_composer :
    (∀ (items : List RecipeItem) (sf : Option ℤ),
      calculateNutrition items sf =
        roundPerServing ((items.map scaleItem).sum) (jsOrZ sf 1)) ∧
    (∀ items : List RecipeItem, calculateNutrition items none = calculateNutrition items (some 1)) ∧
    (∀ items : List RecipeItem,
      calculateNutrition items (some 0) = calculateNutrition items (some 1)) ∧
    (calculateNutrition recipe800 (some 4)).1 = 200 := by
  refine ⟨?_, ?_, ?_, ?_⟩
  · intro items sf
    show roundPerServing (items.foldl accumItem (0, 0, 0, 0, 0)) (jsOrZ sf 1) = _
    have h0 : ((0, 0, 0, 0, 0) : Vec5) = 0 := rfl
    rw [foldl_accumItem, h0, zero_add]
  · intro items; rfl
  · intro items; rfl
  · simp [calculateNutrition, accumItem, recipe800, ing400, jsOrZ, jsRound]
    norm_num

/-- C6 (counterexample): a serving_unit of g with serving_size 0 — a value
different from 100, so the claim prescribes the default (0, g) — falls through
the code's JavaScript truthiness check and yields (100, g). -/
theorem c6_counterexample :
    addIngredientDefaults "g" (some 0) = (100, "g") ∧
      claimedDefaultsC6 "g" (some 0) = (0, "g") ∧
      addIngredientDefaults "g" (some 0) ≠ claimedDefaultsC6 "g" (some 0) := by
  have hA : addIngredientDefaults "g" (some 0) = (100, "g") := by
    simp [addIngredientDefaults]
  have hB : claimedDefaultsC6 "g" (some 0) = (0, "g") := by
    simp [claimedDefaultsC6]
  refine ⟨hA, hB, ?_⟩
  rw [hA, hB]
  norm_num [Prod.ext_iff]

/-- C6 (amended): the resolver realizes the claimed classification except that
the (serving_size, g) case additionally requires the serving size to be
present and nonzero — a zero or absent serving size with unit g falls to the
(100, g) default; the function is total by construction. -/
theorem c6_unit_resolver :
    ∀ (su : String) (ss : Option ℚ),
      addIngredientDefaults su ss = amendedDefaultsC6 su ss := by
  intro su ss
  by_cases h : su = ""
  · subst h
    simp [addIngredientDefaults, amendedDefaultsC6]
  · unfold addIngredientDefaults amendedDefaultsC6
    rw [if_neg h]

/-- C7 (counterexample): an ingredient with serving_unit ml and a negative
serving_size receives the default quantity -5, which is not positive. -/
theorem c7_counterexample :
    (addIngredientDefaults "ml" (some (-5))).1 = -5 ∧
      ¬ 0 < (addIngredientDefaults "ml" (some (-5))).1 := by
  have hA : addIngredientDefaults "ml" (some (-5)) = (-5, "ml") := by
    simp [addIngredientDefaults, jsOrQ]
  rw [hA]
  norm_num

/-- C7 (amended): whenever the ingredient's serving size is not negative
(zero and absent included), the resolver's default quantity is positive and
its default unit is one of g, ml, piece, cup, tbsp, tsp; a negative serving
size is passed through as a nonpositive quantity by the ml and g branches. -/
theorem c7_defaults_wellformed :
    ∀ (su : String) (ss : Option ℚ), (∀ v ∈ ss, 0 ≤ v) →
      0 < (addIngredientDefaults su ss).1 ∧
      (addIngredientDefaults su ss).2 ∈ (["g", "ml", "piece", "cup", "tbsp", "tsp"] : List String) := by
  intro su ss h
  by_cases h0 : su = ""
  · subst h0
    refine ⟨?_, ?_⟩ <;> simp [addIngredientDefaults]
  · by_cases h1 : su = "egg" ∨ su = "piece" ∨ su = "item" ∨ su = "whole"
    · have heq : addIngredientDefaults su ss = (1, "piece") := by
        unfold addIngredientDefaults; rw [if_neg h0, if_pos h1]
      rw [heq]
      refine ⟨by norm_num, by simp⟩
    · by_cases h2 : su = "ml" ∨ su = "fluid ounce"
      · have heq : addIngredientDefaults su ss = (jsOrQ ss 100, "ml") := by
          unfold addIngredientDefaults; rw [if_neg h0, if_neg h1, if_pos h2]
        rw [heq]
        refine ⟨?_, by simp⟩
        rcases ss with _ | v
        · norm_num [jsOrQ]
        · have hv : 0 ≤ v := h v rfl
          by_cases hz : v = 0
          · simp [jsOrQ, hz]
          · simpa [jsOrQ, hz] using lt_of_le_of_ne hv (Ne.symm hz)
      · by_cases h3 : su = "g"
        · subst h3
          rcases ss with _ | v
          · have heq : addIngredientDefaults "g" none = (100, "g") := by
              unfold addIngredientDefaults; rw [if_neg h0, if_neg h1, if_neg h2]; simp
            rw [heq]
            refine ⟨by norm_num, by simp⟩
          · have hv : 0 ≤ v := h v rfl
            by_cases hc : v ≠ 0 ∧ v ≠ 100
            · have heq : addIngredientDefaults "g" (some v) = (v, "g") := by
                unfold addIngredientDefaults; rw [if_neg h0, if_neg h1, if_neg h2]; simp [hc]
              rw [heq]
              exact ⟨lt_of_le_of_ne hv (Ne.symm hc.1), by simp⟩
            · have heq : addIngredientDefaults "g" (some v) = (100, "g") := by
                unfold addIngredientDefaults; rw [if_neg h0, if_neg h1, if_neg h2]; simp [hc]
              rw [heq]
              refine ⟨by norm_num, by simp⟩
        · by_cases h4 : su = "cup" ∨ su = "tbsp" ∨ su = "tsp" ∨ su = "tablespoon" ∨ su = "teaspoon"
          · have heq : addIngredientDefaults su ss =
                (1, if su = "tablespoon" then "tbsp" else if su = "teaspoon" then "tsp" else su) := by
              unfold addIngredientDefaults
              rw [if_neg h0, if_neg h1, if_neg h2, if_neg h3, if_pos h4]
            rw [heq]
            refine ⟨by norm_num, ?_⟩
            rcases h4 with h5 | h5 | h5 | h5 | h5 <;> subst h5 <;> simp
          · have heq : addIngredientDefaults su ss = (100, "g") := by
              unfold addIngredientDefaults
              rw [if_neg h0, if_neg h1, if_neg h2, if_neg h3, if_neg h4]
            rw [heq]
            refine ⟨by norm_num, by simp⟩

/-- Witness for C7 at a concrete piece-like ingredient with no serving
size. -/
theorem c7_witness :
    (∀ v ∈ (none : Option ℚ), 0 ≤ v) ∧
      (0 < (addIngredientDefaults "egg" none).1 ∧
        (addIngredientDefaults "egg" none).2 ∈
          (["g", "ml", "piece", "cup", "tbsp", "tsp"] : List String)) :=
  ⟨by simp, c7_defaults_wellformed "egg" none (by simp)⟩

end FoodPlanner
